import Mathlib

/-
Verification development for the IVR conversational engine
(`conversational_ai.py`): a shallow embedding of the intent classifier,
the entity extractor and the dialogue state machine, with theorems
settling the specification claims.

Conventions of the embedding:
* Python strings are Lean `String`s; scanning works on `List Char`.
* Python floats in the classifier are modelled as exact rationals `ℚ`
  (weights 1.0 and 0.7, threshold 0.3).
* The regular expressions of the pattern library become data of a small
  `RE` type interpreted by a backtracking matcher `mtch` with
  leftmost-first search (`reSearch`), mirroring `re.search` semantics:
  alternatives tried in order, greedy counted classes with backtracking,
  word boundaries, and numbered capture groups.
* Redis state (call session, reservation draft, reservation store)
  becomes an explicit `World` value threaded through the turn function.
-/

/-! ### Basic character and string utilities -/

def isPySpace (c : Char) : Bool :=
  c = ' ' ∨ c = '\t' ∨ c = '\n' ∨ c = '\r' ∨ c = Char.ofNat 11 ∨ c = Char.ofNat 12

def isDigitCh (c : Char) : Bool := '0' ≤ c ∧ c ≤ '9'

def isLowerCh (c : Char) : Bool := 'a' ≤ c ∧ c ≤ 'z'

def isUpperCh (c : Char) : Bool := 'A' ≤ c ∧ c ≤ 'Z'

/-- `\w` of the source patterns (ASCII fragment, enough for phone text). -/
def isWordCh (c : Char) : Bool := isLowerCh c ∨ isUpperCh c ∨ isDigitCh c ∨ c = '_'

def lowerCh (c : Char) : Char := if isUpperCh c then Char.ofNat (c.toNat + 32) else c

def upperCh (c : Char) : Char := if isLowerCh c then Char.ofNat (c.toNat - 32) else c

def toLowerL (l : List Char) : List Char := l.map lowerCh

def toUpperL (l : List Char) : List Char := l.map upperCh

/-- Python `str.strip()` (default whitespace). -/
def pyStrip (l : List Char) : List Char :=
  ((l.dropWhile isPySpace).reverse.dropWhile isPySpace).reverse

/-- worker for `pySplit`; the fuel (at least the input length: every
step consumes at least one character) keeps the recursion structural so
the kernel can evaluate it. -/
def pySplitF : Nat → List Char → List (List Char)
  | _, [] => []
  | 0, _ => []
  | fuel + 1, c :: rest =>
    if isPySpace c then pySplitF fuel rest
    else
      (c :: rest).takeWhile (fun d => ! isPySpace d) ::
        pySplitF fuel ((c :: rest).dropWhile (fun d => ! isPySpace d))

/-- Python `str.split()` with no argument: split on whitespace runs,
dropping empty pieces. -/
def pySplit (l : List Char) : List (List Char) := pySplitF l.length l

/-- substring containment, Python `a in b`. -/
def containsSub (hay : List Char) (nee : List Char) : Bool :=
  match hay with
  | [] => nee = []
  | _ :: rest => nee.isPrefixOf hay ∨ containsSub rest nee

/-- worker for `pyReplace`: all non-overlapping occurrences of a
nonempty `pat`, left to right, continuing after each replacement (fuel
as in `pySplitF`). -/
def replAllF (pat rep : List Char) : Nat → List Char → List Char
  | _, [] => []
  | 0, l => l
  | fuel + 1, c :: rest =>
    if pat.isPrefixOf (c :: rest) then
      rep ++ replAllF pat rep fuel (rest.drop (pat.length - 1))
    else c :: replAllF pat rep fuel rest

/-- Python `str.replace(pat, rep)` (no-op for an empty pattern, which
this code never passes). -/
def pyReplace (s pat rep : String) : String :=
  match pat.data with
  | [] => s
  | _ :: _ => String.mk (replAllF pat.data rep.data s.data.length s.data)

/-- digits of a decimal string, `int(s)` for nonempty all-digit strings;
`none` models `ValueError`. -/
def parseNatL : List Char → Option Nat
  | [] => none
  | l =>
    if l.all isDigitCh then
      some (l.foldl (fun acc c => acc * 10 + (c.toNat - '0'.toNat)) 0)
    else none

def joinSep (sep : String) (ws : List String) : String :=
  match ws with
  | [] => ""
  | w :: rest => rest.foldl (fun acc x => acc ++ sep ++ x) w

/-- ASCII apostrophe, used inside text literals. -/
def apS : String := String.mk [Char.ofNat 39]

/-! ### A small backtracking matcher for the source's patterns -/

/-- Pattern syntax: enough for every regular expression of the source.
`cls p lo hi` is a greedy counted character class (`hi = none` meaning
unbounded), `grp i r` a numbered capture group, `wb` a word boundary,
`bos`/`eos` the `^`/`$` anchors (no MULTILINE in the source). -/
inductive RE where
  | eps
  | lit (cs : List Char)
  | cls (p : Char → Bool) (lo : Nat) (hi : Option Nat)
  | cat (a b : RE)
  | alt2 (a b : RE)
  | grp (i : Nat) (r : RE)
  | wb
  | bos
  | eos

abbrev Caps := List (Nat × Nat × Nat)

def wordAt (inp : List Char) (i : Nat) : Bool :=
  match inp.get? i with
  | some c => isWordCh c
  | none => false

def wordBoundary (inp : List Char) (pos : Nat) : Bool :=
  (match pos with
   | 0 => false
   | p + 1 => wordAt inp p) != wordAt inp pos

/-- try the counted class greedily: longest repetition first, down to `lo`. -/
def tryCnt (lo pos : Nat) (cs : Caps) (k : Nat → Caps → Option (Nat × Caps)) :
    Nat → Option (Nat × Caps)
  | 0 => if lo = 0 then k pos cs else none
  | n + 1 =>
    if n + 1 < lo then none
    else
      match k (pos + (n + 1)) cs with
      | some r => some r
      | none => tryCnt lo pos cs k n

/-- CPS backtracking matcher: try to match `r` at `pos`, then run the
continuation `k`; alternatives and shorter repetitions are tried on
failure, exactly the order a backtracking engine uses. -/
def mtch (inp : List Char) (r : RE) (pos : Nat) (cs : Caps)
    (k : Nat → Caps → Option (Nat × Caps)) : Option (Nat × Caps) :=
  match r with
  | .eps => k pos cs
  | .lit l => if l.isPrefixOf (inp.drop pos) then k (pos + l.length) cs else none
  | .cls p lo hi =>
    let mr := ((inp.drop pos).takeWhile p).length
    let top := match hi with | some h => min h mr | none => mr
    tryCnt lo pos cs k top
  | .cat a b => mtch inp a pos cs (fun p2 c2 => mtch inp b p2 c2 k)
  | .alt2 a b =>
    match mtch inp a pos cs k with
    | some res => some res
    | none => mtch inp b pos cs k
  | .grp i sub => mtch inp sub pos cs (fun p2 c2 => k p2 ((i, pos, p2) :: c2))
  | .wb => if wordBoundary inp pos then k pos cs else none
  | .bos => if pos = 0 then k pos cs else none
  | .eos => if pos = inp.length then k pos cs else none

structure Mres where
  mstart : Nat
  mstop : Nat
  caps : Caps
deriving Repr, DecidableEq

/-- `re.search`: leftmost match, scanning start positions left to right. -/
def reSearch (r : RE) (inp : List Char) : Option Mres :=
  (List.range (inp.length + 1)).findSome? fun pos =>
    (mtch inp r pos [] (fun p c => some (p, c))).map fun pc =>
      { mstart := pos, mstop := pc.1, caps := pc.2 }

def sliceOf (inp : List Char) (a b : Nat) : List Char := (inp.drop a).take (b - a)

/-- `match.group(n)` for `n ≥ 1` (most recent binding of the group). -/
def capGet (inp : List Char) (m : Mres) (n : Nat) : Option (List Char) :=
  (m.caps.find? (fun t => t.1 = n)).map fun t => sliceOf inp t.2.1 t.2.2

/-- `match.group(0)`. -/
def g0 (inp : List Char) (m : Mres) : List Char := sliceOf inp m.mstart m.mstop

/-! pattern-building helpers -/

def rlit (s : String) : RE := RE.lit s.data

def ralts : List RE → RE
  | [] => RE.cls (fun _ => false) 1 (some 1)
  | [r] => r
  | r :: rs => RE.alt2 r (ralts rs)

def rseq : List RE → RE
  | [] => RE.eps
  | [r] => r
  | r :: rs => RE.cat r (rseq rs)

/-- alternation of literal words, in the written order. -/
def rwords (ss : List String) : RE := ralts (ss.map rlit)

def ropt (r : RE) : RE := RE.alt2 r RE.eps

/-- `\d{lo,hi}`. -/
def dd (lo hi : Nat) : RE := RE.cls isDigitCh lo (some hi)

/-- `\d+`. -/
def dPlus : RE := RE.cls isDigitCh 1 none

/-- `\s*`. -/
def ws0 : RE := RE.cls isPySpace 0 none

/-- `\s+`. -/
def ws1 : RE := RE.cls isPySpace 1 none

/-! ### Data model enumerations (`Intent`, `ConversationState`) -/

inductive Intent where
  | makeReservation
  | checkReservation
  | cancelReservation
  | greeting
  | help
  | goodbye
  | unknown
deriving DecidableEq, Repr

inductive ConversationState where
  | initial
  | collectingName
  | collectingContact
  | collectingDate
  | collectingTime
  | collectingGuests
  | collectingReservationId
  | confirmingReservation
  | completed
deriving DecidableEq, Repr

/-! ### Intent pattern library (`IntentRecognizer.intent_patterns`) -/

def makeP1 : RE := rseq [RE.wb, RE.grp 1 (rwords ["make", "create", "book", "reserve",
  "new reservation", "want to reserve", "need a table"]), RE.wb]

def makeP2 : RE := rseq [RE.wb, RE.grp 1 (rwords ["table for", "reservation for",
  "book a table"]), RE.wb]

def checkP1 : RE := rseq [RE.wb, RE.grp 1 (rwords ["check", "view", "see", "look up",
  "find", "status of", "details of"]), ws1, ropt (RE.grp 2 (rwords ["my ", "the "])),
  rlit "reservation", RE.wb]

def checkP2 : RE := rseq [RE.wb, rlit "reservation ",
  RE.grp 1 (rwords ["status", "details", "info"]), RE.wb]

def checkP3 : RE := rseq [RE.wb, rlit "what is ", ropt (RE.grp 1 (rwords ["my ", "the "])),
  rlit "reservation", RE.wb]

def cancelP1 : RE := rseq [RE.wb, RE.grp 1 (rwords ["cancel", "delete", "remove",
  "cancel my", "cancel the", "remove my"]), ws1,
  RE.grp 2 (rwords ["reservation", "booking"]), RE.wb]

def cancelP2 : RE := rseq [RE.wb, rlit "cancel", RE.wb]

def greetP1 : RE := rseq [RE.wb, RE.grp 1 (rwords ["hi", "hello", "hey", "greetings",
  "good morning", "good afternoon", "good evening"]), RE.wb]

def helpP1 : RE := rseq [RE.wb, RE.grp 1 (rwords ["help", "what can you do", "options",
  "menu", "assistance", "support"]), RE.wb]

def byeP1 : RE := rseq [RE.wb, RE.grp 1 (rwords ["bye", "goodbye", "thanks", "thank you",
  "done", "finish", "exit", "end"]), RE.wb]

/-- the intent pattern table, in source declaration order. -/
def intentPatternTable : List (Intent × List RE) :=
  [(Intent.makeReservation, [makeP1, makeP2]),
   (Intent.checkReservation, [checkP1, checkP2, checkP3]),
   (Intent.cancelReservation, [cancelP1, cancelP2]),
   (Intent.greeting, [greetP1]),
   (Intent.help, [helpP1]),
   (Intent.goodbye, [byeP1])]

/-! ### Date patterns (`extract_entities`, date block) -/

def monthsW : List String := ["january", "february", "march", "april", "may", "june",
  "july", "august", "september", "october", "november", "december"]

/-- `[- ]`. -/
def dashSp : RE := RE.cls (fun c => c == '-' || c == ' ') 1 (some 1)

/-- the day alternation used by the "Month Day" and "Day of Month"
patterns: `\d{1,2}(?:st|nd|rd|th)?` first, then ordinal words in the
written order. -/
def dayAltRE : RE := ralts
  ([rseq [dd 1 2, ropt (rwords ["st", "nd", "rd", "th"])]] ++
   (["first", "second", "third", "fourth", "fifth", "sixth", "seventh", "eighth",
     "ninth", "tenth", "eleventh", "twelfth", "thirteenth", "fourteenth", "fifteenth",
     "sixteenth", "seventeenth", "eighteenth", "nineteenth", "twentieth"].map rlit) ++
   (["first", "second", "third", "fourth", "fifth", "sixth", "seventh", "eighth",
     "ninth"].map fun s => rseq [rlit "twenty", dashSp, rlit s]) ++
   [rlit "thirtieth", rseq [rlit "thirty", dashSp, rlit "first"]])

/-- the slash-or-dash separator class of the numeric date pattern. -/
def slashDash : RE := RE.cls (fun c => c == '/' || c == '-') 1 (some 1)

def datP1 : RE := rseq [RE.wb, RE.grp 1 (rwords ["today", "tomorrow", "next week",
  "this week", "next monday", "next tuesday", "next wednesday", "next thursday",
  "next friday", "next saturday", "next sunday"]), RE.wb]

def datP2 : RE := rseq [RE.wb, RE.grp 1 (rwords monthsW), ws1, RE.grp 2 dayAltRE, RE.wb]

def datP3 : RE := rseq [RE.wb, ropt (RE.grp 1 (rseq [rlit "the", ws1])), RE.grp 2 dayAltRE,
  ws1, rlit "of", ws1, RE.grp 3 (rwords monthsW), RE.wb]

def datP4 : RE := rseq [RE.wb, RE.grp 1 (dd 1 2), slashDash, RE.grp 2 (dd 1 2), slashDash,
  RE.grp 3 (dd 2 4), RE.wb]

def datP5 : RE := rseq [RE.wb, RE.grp 1 (rwords monthsW), ws1, RE.grp 2 (dd 1 2), RE.wb]

def datP6 : RE := rseq [RE.wb, ropt (RE.grp 1 (rseq [rlit "next", ws1])),
  RE.grp 2 (rwords ["monday", "tuesday", "wednesday", "thursday", "friday", "saturday",
  "sunday"]), RE.wb]

def datePatterns : List RE := [datP1, datP2, datP3, datP4, datP5, datP6]

/-- the `'of' in matched_text` normalization: reorder "20th of november"
to "november 20th". -/
def dateNormalize (mt : List Char) : String :=
  if containsSub mt "of".data then
    let parts := pySplit mt
    if parts.contains "of".data then
      let i := parts.indexOf "of".data
      if 0 < i ∧ i < parts.length - 1 then
        let dayPart := joinSep " " ((parts.take i).map String.mk)
        let monthPart := String.mk (parts.getD (i + 1) [])
        String.mk (pyStrip (monthPart ++ " " ++ dayPart).data)
      else String.mk mt
    else String.mk mt
  else String.mk mt

/-- date extraction: first matching pattern wins, then normalization. -/
def dateOf (lo : List Char) : Option String :=
  (datePatterns.findSome? fun p => (reSearch p lo).map (g0 lo)).map dateNormalize

/-! ### Time patterns (`extract_entities`, time block) -/

def numWords12 : List String := ["one", "two", "three", "four", "five", "six", "seven",
  "eight", "nine", "ten", "eleven", "twelve"]

/-- `[\'\-]?`. -/
def apoDash : RE := RE.cls (fun c => c == Char.ofNat 39 || c == '-') 0 (some 1)

def timP1 : RE := rseq [RE.wb, RE.grp 1 (dd 1 2), rlit ":", RE.grp 2 (dd 2 2), ws0,
  RE.grp 3 (rwords ["am", "pm"]), RE.wb]

def timP2 : RE := rseq [RE.wb, RE.grp 1 (dd 1 2), ws0, RE.grp 2 (rwords ["am", "pm"]),
  RE.wb]

def timP3 : RE := rseq [RE.wb, RE.grp 1 (ralts ([dd 1 2] ++ numWords12.map rlit)), ws0,
  rlit "o", apoDash, rlit "clock", ws0, ropt (RE.grp 2 (rwords ["am", "pm"])), RE.wb]

def timP4 : RE := rseq [RE.wb, RE.grp 1 (rwords ["at", "by", "around", "about"]), ws1,
  RE.grp 2 (dd 1 2), RE.wb]

def timP5 : RE := rseq [RE.bos, ws0, RE.grp 1 (dd 1 2), ws0, RE.eos]

def timP6 : RE := rseq [RE.wb, RE.grp 1 (rwords ["morning", "afternoon", "evening",
  "night", "noon", "midnight", "lunch", "dinner"]), RE.wb]

def timP7 : RE := rseq [RE.wb, RE.grp 1 (rwords ["half", "quarter"]), ws1,
  RE.grp 2 (rwords ["past", "to"]), ws1, RE.grp 3 (dd 1 2), ws0,
  ropt (RE.grp 4 (rwords ["am", "pm"])), RE.wb]

def timePatterns : List RE := [timP1, timP2, timP3, timP4, timP5, timP6, timP7]

/-- `\b(\d{1,2}|one|...|twelve)\b`, searched inside the matched text in
the o'clock branch. -/
def numWordPat : RE := rseq [RE.wb, RE.grp 1 (ralts ([dd 1 2] ++ numWords12.map rlit)),
  RE.wb]

/-- `\b(am|pm)\b`. -/
def ampmPat : RE := rseq [RE.wb, RE.grp 1 (rwords ["am", "pm"]), RE.wb]

def wordToNum12 : List (String × String) := [("one", "1"), ("two", "2"), ("three", "3"),
  ("four", "4"), ("five", "5"), ("six", "6"), ("seven", "7"), ("eight", "8"),
  ("nine", "9"), ("ten", "10"), ("eleven", "11"), ("twelve", "12")]

/-- time extraction: first matching pattern wins; o'clock matches get the
word-number/meridiem normalization, defaulting to "pm". -/
def timeOf (lo : List Char) : Option String :=
  match timePatterns.findSome? fun p => (reSearch p lo).map (g0 lo) with
  | none => none
  | some mt =>
    if containsSub mt ("o" ++ apS ++ "clock").data || containsSub mt "oclock".data then
      match reSearch numWordPat mt with
      | some nm =>
        let numberRaw := String.mk ((capGet mt nm 1).getD [])
        let number :=
          ((wordToNum12.find? fun p => p.1 = numberRaw).map fun p => p.2).getD numberRaw
        match reSearch ampmPat mt with
        | some am => some (number ++ " " ++ String.mk ((capGet mt am 1).getD []))
        | none => some (number ++ " pm")
      | none => none
    else some (String.mk mt)

/-! ### Guest-count patterns (`extract_entities`, guests block) -/

def gstP1 : RE := rseq [RE.wb, RE.grp 1 dPlus, ws0,
  RE.grp 2 (rwords ["people", "guests", "persons", "pax"]), RE.wb]

def gstP2 : RE := rseq [RE.wb, RE.grp 1 (rwords ["table for", "reservation for"]), ws1,
  RE.grp 2 dPlus, RE.wb]

def gstP3 : RE := rseq [RE.wb, RE.grp 1 dPlus, RE.wb]

/-- guest extraction: for each pattern in order, take `group(1)` (all
three patterns have groups), `int(...)` it — a `ValueError` (as on
"table for") or an out-of-range value falls through to the next
pattern — and accept values in [1,20]. -/
def guestsOf (lo : List Char) : Option String :=
  [gstP1, gstP2, gstP3].findSome? fun p =>
    match reSearch p lo with
    | none => none
    | some m =>
      match parseNatL ((capGet lo m 1).getD []) with
      | none => none
      | some g => if 1 ≤ g ∧ g ≤ 20 then some (toString g) else none

/-! ### Reservation id, name, contact (`extract_entities`) -/

def residPat : RE := rseq [RE.wb,
  RE.grp 1 (RE.cls (fun c => isUpperCh c || isDigitCh c) 6 (some 10)), RE.wb]

/-- reservation-id extraction over the uppercased utterance. -/
def residOf (orig : List Char) : Option String :=
  (reSearch residPat (toUpperL orig)).map fun m =>
    String.mk ((capGet (toUpperL orig) m 1).getD [])

/-- Python `str.capitalize()`. -/
def capFirst : List Char → List Char
  | [] => []
  | c :: rest => upperCh c :: rest.map lowerCh

/-- name extraction: only in CollectingName; 1–3 words before filtering,
keep the words longer than 2 characters, capitalized and joined. -/
def nameOf (orig : List Char) (st : ConversationState) : Option String :=
  if st = ConversationState.collectingName then
    let ws := pySplit orig
    if 1 ≤ ws.length ∧ ws.length ≤ 3 then
      let cands := (ws.filter fun w => 2 < w.length).map capFirst
      if cands ≠ [] then some (joinSep " " (cands.map String.mk)) else none
    else none
  else none

def numberWordMap : List (String × String) := [("zero", "0"), ("one", "1"), ("two", "2"),
  ("three", "3"), ("four", "4"), ("five", "5"), ("six", "6"), ("seven", "7"),
  ("eight", "8"), ("nine", "9"), ("oh", "0"), ("o", "0")]

/-- the spoken-digit normalization before phone matching: for each word,
replace `" w "`, then `" w"`, then `"w "`. -/
def normalizeSpokenDigits (lo : String) : String :=
  numberWordMap.foldl
    (fun s wd =>
      let s1 := pyReplace s (" " ++ wd.1 ++ " ") (" " ++ wd.2 ++ " ")
      let s2 := pyReplace s1 (" " ++ wd.1) (" " ++ wd.2)
      pyReplace s2 (wd.1 ++ " ") (wd.2 ++ " "))
    lo

/-- `[-.\s]?`. -/
def sepCls : RE := RE.cls (fun c => c == '-' || c == '.' || isPySpace c) 0 (some 1)

def phoP1 : RE := rseq [RE.wb, RE.grp 1 (RE.cls isDigitCh 10 (some 15)), RE.wb]

def phoP2 : RE := rseq [RE.wb, RE.grp 1 (rseq [dd 3 3, sepCls, dd 3 3, sepCls, dd 4 4]),
  RE.wb]

def phoP3 : RE := rseq [RE.wb, RE.grp 1 (rseq [dd 3 3, sepCls, dd 7 7]), RE.wb]

def phoP4 : RE := rseq [RE.wb, RE.grp 1 (rseq [rlit "(", dd 3 3, rlit ")", sepCls,
  dd 3 3, sepCls, dd 4 4]), RE.wb]

def emailCls : RE := RE.cls (fun c => isWordCh c || c == '.' || c == '-') 1 none

def emailPat : RE := rseq [RE.wb, emailCls, rlit "@", emailCls, rlit ".",
  RE.cls isWordCh 1 none, RE.wb]

/-- contact extraction: spoken-digit normalization, then the phone
patterns in order (stripping non-digits of `group(1)`, accepting ≥ 10
digits), else the email pattern on the plain lowercased input. -/
def contactOf (lo : List Char) : Option String :=
  let normalized := (normalizeSpokenDigits (String.mk lo)).data
  let phone := [phoP1, phoP2, phoP3, phoP4].findSome? fun p =>
    match reSearch p normalized with
    | none => none
    | some m =>
      let digitsOnly := ((capGet normalized m 1).getD []).filter isDigitCh
      if 10 ≤ digitsOnly.length then some (String.mk digitsOnly) else none
  match phone with
  | some c => some c
  | none => (reSearch emailPat lo).map fun m => String.mk (g0 lo m)

/-! ### `extract_entities` -/

structure Entities where
  date : Option String := none
  time : Option String := none
  guests : Option String := none
  reservation_id : Option String := none
  name : Option String := none
  contact : Option String := none
deriving DecidableEq, Repr

/-- `IntentRecognizer.extract_entities`: the six independent rule blocks.
Only the name block consults the current state. -/
def extractEntities (u : String) (st : ConversationState) : Entities :=
  { date := dateOf (toLowerL u.data)
    time := timeOf (toLowerL u.data)
    guests := guestsOf (toLowerL u.data)
    reservation_id := residOf u.data
    name := nameOf u.data st
    contact := contactOf (toLowerL u.data) }

/-- Python truthiness of the entities dict. -/
def entitiesAny (e : Entities) : Bool :=
  e.date.isSome || e.time.isSome || e.guests.isSome || e.reservation_id.isSome ||
  e.name.isSome || e.contact.isSome

/-! ### `recognize_intent` (scores as exact rationals) -/

/-- one pattern's contribution: position-weighted 1.0 within the first
30% of the utterance, else 0.7; `none` when the pattern has no match. -/
def patScore (inp : List Char) (r : RE) : Option ℚ :=
  (reSearch r inp).map fun m =>
    if (m.mstart : ℚ) < (inp.length : ℚ) * 3 / 10 then 1 else 7 / 10

/-- per-intent score: (sum of weights) / (pattern count) × (match count),
capped at 1; `none` when no pattern of the intent matched. -/
def intentScoreOf (inp : List Char) (ps : List RE) : Option ℚ :=
  let ws := ps.filterMap (patScore inp)
  if ws.length = 0 then none
  else some (min (ws.foldl (· + ·) 0 / (ps.length : ℚ) * (ws.length : ℚ)) 1)

/-- the populated `intent_scores` dict, in declaration order. -/
def intentScores (inp : List Char) : List (Intent × ℚ) :=
  intentPatternTable.filterMap fun ip => (intentScoreOf inp ip.2).map fun q => (ip.1, q)

/-- Python `max(d, key=d.get)`: first maximum in iteration order
(replace only on strictly greater). -/
def firstMax (a : Intent × ℚ) : List (Intent × ℚ) → Intent × ℚ
  | [] => a
  | p :: ps => if p.2 > a.2 then firstMax p ps else firstMax a ps

/-- `intent_scores` as computed from the raw utterance (lowered and
stripped first, as in the source). -/
def intentScoresOf (u : String) : List (Intent × ℚ) :=
  intentScores (pyStrip (toLowerL u.data))

/-- `IntentRecognizer.recognize_intent`. -/
def recognizeIntent (u : String) : Intent × ℚ :=
  if u = "" then (Intent.unknown, 0)
  else
    match intentScoresOf u with
    | [] => (Intent.unknown, 0)
    | s :: ss =>
      let b := firstMax s ss
      if b.2 ≥ 3 / 10 then b else (Intent.unknown, 0)

/-! ### Session, draft and store state (the Redis hashes) -/

structure Session where
  conversation_state : ConversationState := ConversationState.initial
  action_type : Option String := none
  pending_contact : Option String := none
  pending_time : Option String := none
  date_retry_count : Option Nat := none
  time_retry_count : Option Nat := none
deriving DecidableEq, Repr

structure Draft where
  name : Option String := none
  contact : Option String := none
  date : Option String := none
  time : Option String := none
  guests : Option String := none
  reservation_id : Option String := none
deriving DecidableEq, Repr

structure ResRecord where
  name : Option String := none
  date : Option String := none
  time : Option String := none
  guests : Option String := none
deriving DecidableEq, Repr

structure World where
  session : Session := {}
  draft : Draft := {}
  reservations : List (String × ResRecord) := []
deriving DecidableEq, Repr

structure TurnResult where
  intent : Intent := Intent.unknown
  confidence : ℚ := 0
  entities : Entities := {}
  current_state : ConversationState := ConversationState.initial
  response_text : String := ""
  next_action : String := ""
  needs_more_info : Bool := false
  action_type_out : Option String := none
deriving DecidableEq, Repr

/-- one field of `update_reservation_data`: written only when the value
is truthy (a nonempty string). -/
def updOne (cur v : Option String) : Option String :=
  match v with
  | some s => if s ≠ "" then some s else cur
  | none => cur

/-- `update_reservation_data`: write every truthy extracted entity into
the reservation draft hash. -/
def updateDraft (d : Draft) (e : Entities) : Draft :=
  { name := updOne d.name e.name
    contact := updOne d.contact e.contact
    date := updOne d.date e.date
    time := updOne d.time e.time
    guests := updOne d.guests e.guests
    reservation_id := updOne d.reservation_id e.reservation_id }

/-! ### `_validate_time_within_hours` and helpers -/

/-- leftmost `(\d{1,2})` of the lowered, stripped time string. -/
def hourNumOf (tl : List Char) : Option Nat :=
  (reSearch (RE.grp 1 (dd 1 2)) tl).bind fun m => parseNatL ((capGet tl m 1).getD [])

/-- `_validate_time_within_hours`: no hour → accept; "am" substring →
hour 9–11; else "pm" substring → hour 12 or 1–10; else accept. -/
def validateTimeWithinHours (t : String) : Bool :=
  let tl := pyStrip (toLowerL t.data)
  match hourNumOf tl with
  | none => true
  | some hour =>
    if containsSub tl "am".data then decide (9 ≤ hour ∧ hour ≤ 11)
    else if containsSub tl "pm".data then decide (hour = 12 ∨ (1 ≤ hour ∧ hour ≤ 10))
    else true

def digitWordOf (c : Char) : String :=
  if c = '0' then "zero" else if c = '1' then "one" else if c = '2' then "two"
  else if c = '3' then "three" else if c = '4' then "four" else if c = '5' then "five"
  else if c = '6' then "six" else if c = '7' then "seven" else if c = '8' then "eight"
  else if c = '9' then "nine" else String.mk [c]

/-- `format_phone_for_speech`. -/
def formatPhoneForSpeech (p : String) : String :=
  let ds := p.data.filter isDigitCh
  if ds.length = 10 then
    joinSep " " ((ds.take 3).map digitWordOf) ++ ", " ++
    joinSep " " (((ds.drop 3).take 3).map digitWordOf) ++ ", " ++
    joinSep " " ((ds.drop 6).map digitWordOf)
  else joinSep ", " (ds.map digitWordOf)

def confirmationWords : List String :=
  ["yes", "yeah", "yep", "correct", "right", "that" ++ apS ++ "s right",
   "that is correct", "yup"]

def rejectionWords : List String :=
  ["no", "nope", "incorrect", "wrong", "try again", "that" ++ apS ++ "s wrong"]

/-- `any(word in user_input_lower for word in ws)`. -/
def anyWordIn (ws : List String) (lo : List Char) : Bool :=
  ws.any fun w => containsSub lo w.data

/-! ### The dialogue handlers -/

def handleInitial (it : Intent) (rd : TurnResult) : TurnResult :=
  if it = Intent.makeReservation then
    { rd with
      response_text := "Great! I" ++ apS ++ "d be happy to help you make a reservation. " ++
        "May I please have your name?"
      next_action := "collect_name"
      needs_more_info := true }
  else if it = Intent.checkReservation then
    { rd with
      response_text := "I can help you check your reservation. " ++
        "Please provide your reservation ID."
      next_action := "collect_reservation_id"
      needs_more_info := true
      action_type_out := some "check" }
  else if it = Intent.cancelReservation then
    { rd with
      response_text := "I can help you cancel your reservation. " ++
        "Please provide your reservation ID."
      next_action := "collect_reservation_id_for_cancel"
      needs_more_info := true
      action_type_out := some "cancel" }
  else if it = Intent.help then
    { rd with
      response_text := "I can help you make a new reservation, " ++
        "check an existing reservation, or cancel a reservation. " ++
        "What would you like to do?" }
  else if it = Intent.greeting then
    { rd with
      response_text := "Hello! Welcome to our Restaurant Reservation System. " ++
        "I can help you make a reservation, check an existing reservation, " ++
        "or cancel a reservation. What would you like to do?" }
  else if it = Intent.goodbye then
    { rd with
      response_text := "Thank you for calling. Have a great day!"
      next_action := "hangup" }
  else
    { rd with
      response_text := "I didn" ++ apS ++ "t quite understand that. " ++
        "You can say " ++ apS ++ "make a reservation" ++ apS ++ ", " ++ apS ++
        "check reservation" ++ apS ++ ", " ++
        "or " ++ apS ++ "cancel reservation" ++ apS ++ ". How may I help you?" }

/-- the response asking for a time, used by the date-found path and the
month+day fallback of CollectingDate. -/
def collectTimeText (date : String) : String :=
  "Reservation for " ++ date ++ ". " ++
  "What time would you like? " ++
  "Please note our restaurant is open from 9am to 10pm. " ++
  "You can say the time in any format, like " ++ apS ++ "1pm" ++ apS ++ ", " ++ apS ++
  "1 o" ++ apS ++ "clock" ++ apS ++ ", or just " ++ apS ++ "1" ++ apS ++ "."

def invalidTimeText (t : String) : String :=
  "I" ++ apS ++ "m sorry, but our restaurant is only open from 9am to 10pm. " ++
  "You requested " ++ t ++ ". " ++
  "Please choose a time between 9am and 10pm."

def contactConfirmText (spoken : String) : String :=
  "I have " ++ spoken ++ ". Is that correct? Say yes to continue, or no to try again."

/-- `r'\b(january|...|december)\s+(\d{1,2})\w*\b'`, the raw-input date
fallback of CollectingDate. -/
def monthDayFallbackPat : RE := rseq [RE.wb, RE.grp 1 (rwords monthsW), ws1,
  RE.grp 2 (dd 1 2), RE.cls isWordCh 0 none, RE.wb]

/-- `r'\b(\d{1,2})\b'`, the bare-hour fallback of CollectingTime. -/
def bareNumPat : RE := rseq [RE.wb, RE.grp 1 (dd 1 2), RE.wb]

/-- the filler words stripped by the CollectingContact fallback. -/
def contactFillerWords : List String :=
  ["my", "phone", "number", "is", "contact", "reach", "me", "at"]

/-- `_handle_collecting_state`. -/
def handleCollecting (w : World) (st : ConversationState) (u : String) (ents : Entities)
    (rd : TurnResult) : World × TurnResult :=
  match st with
  | ConversationState.collectingName =>
    match ents.name with
    | some name =>
      ({ w with session.conversation_state := ConversationState.collectingContact },
       { rd with
         response_text := "Thank you, " ++ name ++ ". What" ++ apS ++
           "s the best phone number to reach you?"
         next_action := "collect_contact"
         needs_more_info := true })
    | none =>
      let words := pySplit (pyStrip u.data)
      if words.length ≥ 1 then
        let name := joinSep " "
          ((words.filter fun wd => 1 < wd.length).map fun wd => String.mk (capFirst wd))
        ({ w with
           draft := updateDraft w.draft { name := some name }
           session.conversation_state := ConversationState.collectingContact },
         { rd with
           response_text := "Thank you, " ++ name ++ ". What" ++ apS ++
             "s the best phone number to reach you?"
           next_action := "collect_contact"
           needs_more_info := true })
      else
        (w, { rd with
          response_text := "I didn" ++ apS ++
            "t catch your name. Could you please say your name again?" })
  | ConversationState.collectingContact =>
    match ents.contact with
    | some contact =>
      ({ w with session.pending_contact := some contact },
       { rd with
         response_text := contactConfirmText (formatPhoneForSpeech contact)
         next_action := "confirm_contact"
         needs_more_info := true })
    | none =>
      let cleaned := contactFillerWords.foldl (fun s wd => pyReplace s wd " ")
        (String.mk (toLowerL u.data))
      let digitsOnly := cleaned.data.filter isDigitCh
      if digitsOnly.length ≥ 10 then
        let contact := String.mk (digitsOnly.take 15)
        ({ w with session.pending_contact := some contact },
         { rd with
           response_text := contactConfirmText (formatPhoneForSpeech contact)
           next_action := "confirm_contact"
           needs_more_info := true })
      else
        let cleaned2 := numberWordMap.foldl (fun s wd => pyReplace s wd.1 wd.2) cleaned
        let digitsFromWords := cleaned2.data.filter isDigitCh
        if digitsFromWords.length ≥ 10 then
          let contact := String.mk (digitsFromWords.take 15)
          ({ w with session.pending_contact := some contact },
           { rd with
             response_text := contactConfirmText (formatPhoneForSpeech contact)
             next_action := "confirm_contact"
             needs_more_info := true })
        else
          (w, { rd with
            response_text := "I" ++ apS ++ "m having trouble catching your phone number. " ++
              "Could you please say it slowly, digit by digit? " ++
              "For example, say " ++ apS ++
              "five five five, one two three, four five six seven" ++ apS ++ "."
            needs_more_info := true })
  | ConversationState.collectingDate =>
    match ents.date with
    | some date =>
      ({ w with
         session.conversation_state := ConversationState.collectingTime
         session.date_retry_count := none },
       { rd with
         response_text := collectTimeText date
         next_action := "collect_time"
         needs_more_info := true })
    | none =>
      let rc := w.session.date_retry_count.getD 0 + 1
      let w1 := { w with session.date_retry_count := some rc }
      let lo := toLowerL u.data
      match reSearch monthDayFallbackPat lo with
      | some m =>
        let month := String.mk ((capGet lo m 1).getD [])
        let day := String.mk ((capGet lo m 2).getD [])
        let de := month ++ " " ++ day
        ({ w1 with
           session.conversation_state := ConversationState.collectingTime
           session.date_retry_count := none },
         { rd with
           entities := { ents with date := some de }
           response_text := collectTimeText de
           next_action := "collect_time"
           needs_more_info := true })
      | none =>
        (w1, { rd with
          response_text :=
            if rc = 1 then
              "I didn" ++ apS ++ "t catch the date clearly. " ++
              "Please say the date again. " ++
              "You can say it like " ++ apS ++ "November twentieth" ++ apS ++ " or " ++
              apS ++ "November 20th" ++ apS ++ " or just " ++ apS ++ "tomorrow" ++ apS ++ "."
            else if rc = 2 then
              "Let me try a different way. " ++
              "Please say the month first, then the day. " ++
              "For example: " ++ apS ++ "November" ++ apS ++ " pause " ++ apS ++ "twenty" ++
              apS ++ " or " ++ apS ++ "November" ++ apS ++ " pause " ++ apS ++
              "twenty zero" ++ apS ++ "."
            else
              "I" ++ apS ++ "m still having trouble. " ++
              "Please try saying the date in this format: " ++
              "Say the month name, then pause, then say the day number. " ++
              "For example, say: " ++ apS ++ "November" ++ apS ++ " pause " ++ apS ++
              "twenty" ++ apS ++ "."
          needs_more_info := true })
  | ConversationState.collectingTime =>
    match ents.time with
    | some time =>
      if validateTimeWithinHours time then
        ({ w with
           session.conversation_state := ConversationState.collectingGuests
           session.time_retry_count := none },
         { rd with
           response_text := "Time: " ++ time ++ ". How many people will be dining?"
           next_action := "collect_guests"
           needs_more_info := true })
      else
        (w, { rd with response_text := invalidTimeText time, needs_more_info := true })
    | none =>
      let rc := w.session.time_retry_count.getD 0 + 1
      let w1 := { w with session.time_retry_count := some rc }
      let lo := toLowerL u.data
      match reSearch bareNumPat lo with
      | some nm =>
        let hour := (parseNatL ((capGet lo nm 1).getD [])).getD 0
        match reSearch ampmPat lo with
        | some am =>
          let te := toString hour ++ " " ++ String.mk ((capGet lo am 1).getD [])
          if validateTimeWithinHours te then
            ({ w1 with
               session.conversation_state := ConversationState.collectingGuests
               session.time_retry_count := none },
             { rd with
               entities := { ents with time := some te }
               response_text := "Time: " ++ te ++ ". How many people will be dining?"
               next_action := "collect_guests"
               needs_more_info := true })
          else
            (w1, { rd with response_text := invalidTimeText te, needs_more_info := true })
        | none =>
          if 1 ≤ hour ∧ hour ≤ 12 then
            if hour ≥ 9 then
              let te := toString hour ++ " pm"
              ({ w1 with session.pending_time := some te },
               { rd with
                 entities := { ents with time := some te }
                 response_text := "I have " ++ te ++ ". Is that correct? Say yes to continue."
                 next_action := "confirm_time"
                 needs_more_info := true })
            else
              (w1, { rd with
                response_text := "I heard " ++ toString hour ++
                  ". Is that in the morning or evening? " ++
                  "Please say " ++ apS ++ toString hour ++ "am" ++ apS ++ " or " ++ apS ++
                  toString hour ++ "pm" ++ apS ++ ". " ++
                  "Remember, we" ++ apS ++ "re open from 9am to 10pm."
                needs_more_info := true })
          else
            (w1, { rd with
              response_text := "I heard " ++ toString hour ++ ", but that doesn" ++ apS ++
                "t seem like a valid time. " ++
                "Please say a time between 9am and 10pm, " ++
                "like " ++ apS ++ "1pm" ++ apS ++ ", " ++ apS ++ "1 o" ++ apS ++ "clock" ++
                apS ++ ", or " ++ apS ++ "7pm" ++ apS ++ "."
              needs_more_info := true })
      | none =>
        (w1, { rd with
          response_text :=
            if rc = 1 then
              "I didn" ++ apS ++ "t catch the time clearly. " ++
              "Please say the time again. " ++
              "You can say " ++ apS ++ "1pm" ++ apS ++ ", " ++ apS ++ "1 o" ++ apS ++
              "clock" ++ apS ++ ", or just " ++ apS ++ "1" ++ apS ++ ". " ++
              "Remember, we" ++ apS ++ "re open from 9am to 10pm."
            else if rc = 2 then
              "Let me try a different way. " ++
              "Please say the hour first, then whether it" ++ apS ++
              "s morning or evening. " ++
              "For example: " ++ apS ++ "one" ++ apS ++ " pause " ++ apS ++ "PM" ++ apS ++
              " or " ++ apS ++ "seven" ++ apS ++ " pause " ++ apS ++ "PM" ++ apS ++ ". " ++
              "We" ++ apS ++ "re open from 9am to 10pm."
            else
              "I" ++ apS ++ "m still having trouble. " ++
              "Please try saying just the hour number and whether it" ++ apS ++
              "s AM or PM. " ++
              "For example: " ++ apS ++ "1" ++ apS ++ " pause " ++ apS ++ "PM" ++ apS ++
              " or " ++ apS ++ "9" ++ apS ++ " pause " ++ apS ++ "AM" ++ apS ++ ". " ++
              "Our restaurant is open from 9am to 10pm."
          needs_more_info := true })
  | ConversationState.collectingGuests =>
    match ents.guests with
    | some guests =>
      ({ w with session.conversation_state := ConversationState.confirmingReservation },
       { rd with
         response_text := "Perfect! Let me confirm your reservation details. " ++
           "Name: " ++ w.draft.name.getD "Customer" ++
           ", Date: " ++ w.draft.date.getD "the selected date" ++
           ", Time: " ++ w.draft.time.getD "the selected time" ++
           ", Number of guests: " ++ guests ++ ". " ++
           "Your reservation has been recorded. Is this correct?"
         next_action := "confirm_reservation"
         needs_more_info := false })
    | none =>
      (w, { rd with
        response_text := "How many people will be dining? Please say the number." })
  | _ => (w, rd)

/-- the looser 4–10 character alphanumeric fallback of
`_handle_reservation_id_state`. -/
def looseIdPat : RE := rseq [RE.wb,
  RE.grp 1 (RE.cls (fun c => isUpperCh c || isDigitCh c) 4 (some 10)), RE.wb]

/-- the body of `_handle_reservation_id_state` once a reservation id is
at hand (shared by the entity path and the fallback recursion). -/
def handleResIdCore (w : World) (rid0 : String) (rd : TurnResult) (acty : Option String) :
    World × TurnResult :=
  let rid := String.mk (toUpperL rid0.data)
  let resExists := (w.reservations.find? fun pr => pr.1 = rid).isSome
  if acty = some "cancel" then
    if resExists then
      ({ w with
         reservations := w.reservations.filter fun pr => pr.1 ≠ rid
         session.conversation_state := ConversationState.completed },
       { rd with
         response_text := "Your reservation " ++ rid ++
           " has been successfully cancelled. " ++ "Thank you for letting us know."
         next_action := "complete"
         needs_more_info := false })
    else
      ({ w with session.conversation_state := ConversationState.completed },
       { rd with
         response_text := "I couldn" ++ apS ++ "t find a reservation with ID " ++ rid ++
           ". " ++ "Please double-check your reservation ID and try again, " ++
           "or contact our staff for assistance."
         needs_more_info := true })
  else
    let body :=
      if resExists then
        let rec0 := ((w.reservations.find? fun pr => pr.1 = rid).map Prod.snd).getD {}
        "I found your reservation. " ++
        "Reservation ID: " ++ rid ++ ". " ++
        "Name: " ++ rec0.name.getD "N/A" ++ ". " ++
        "Date: " ++ rec0.date.getD "N/A" ++ ". " ++
        "Time: " ++ rec0.time.getD "N/A" ++ ". " ++
        "Number of guests: " ++ rec0.guests.getD "N/A" ++ ". " ++
        "Is there anything else I can help you with?"
      else
        "I couldn" ++ apS ++ "t find a reservation with ID " ++ rid ++ ". " ++
        "Please verify your reservation ID and try again."
    ({ w with session.conversation_state := ConversationState.completed },
     { rd with
       response_text := body
       next_action := "complete"
       needs_more_info := false })

/-- `_handle_reservation_id_state`: entity id, else the looser
alphanumeric fallback (the source's tail recursion), else a re-prompt. -/
def handleResId (w : World) (u : String) (ents : Entities) (rd : TurnResult)
    (acty : Option String) : World × TurnResult :=
  match ents.reservation_id with
  | some rid => handleResIdCore w rid rd acty
  | none =>
    match reSearch looseIdPat (toUpperL u.data) with
    | some m =>
      let rid := String.mk ((capGet (toUpperL u.data) m 1).getD [])
      handleResIdCore w rid
        { rd with entities := { ents with reservation_id := some rid } } acty
    | none =>
      (w, { rd with
        response_text := "I didn" ++ apS ++ "t catch your reservation ID. " ++
          "Please say your reservation ID again, or spell it out."
        needs_more_info := true })

/-- `_handle_other_states` (Completed, ConfirmingReservation). -/
def handleOther (it : Intent) (rd : TurnResult) : TurnResult :=
  if it = Intent.goodbye then
    { rd with
      response_text := "Thank you for calling. Have a great day!"
      next_action := "hangup" }
  else
    { rd with response_text := "Is there anything else I can help you with?" }

/-- `DialogueFlowManager.process_user_input`: one dialogue turn over the
explicit world state. -/
def processUserInput (w : World) (u : String) : World × TurnResult :=
  let st := w.session.conversation_state
  let ic := recognizeIntent u
  let ents := extractEntities u st
  let w1 := if entitiesAny ents then { w with draft := updateDraft w.draft ents } else w
  let rd : TurnResult :=
    { intent := ic.1, confidence := ic.2, entities := ents, current_state := st }
  let w2 :=
    if ic.1 = Intent.checkReservation then { w1 with session.action_type := some "check" }
    else if ic.1 = Intent.cancelReservation then
      { w1 with session.action_type := some "cancel" }
    else w1
  if st = ConversationState.initial then (w2, handleInitial ic.1 rd)
  else if st = ConversationState.collectingName ∨ st = ConversationState.collectingContact ∨
      st = ConversationState.collectingDate ∨ st = ConversationState.collectingTime ∨
      st = ConversationState.collectingGuests then
    if w2.session.pending_contact.isSome ∧ st = ConversationState.collectingContact then
      let pc := w2.session.pending_contact.getD ""
      let lo := toLowerL u.data
      if anyWordIn confirmationWords lo then
        ({ w2 with
           draft := updateDraft w2.draft { contact := some pc }
           session.pending_contact := none
           session.conversation_state := ConversationState.collectingDate },
         { rd with
           response_text := "Great! What date would you like to make the reservation for? " ++
             "For example, you can say " ++ apS ++ "tomorrow" ++ apS ++ ", " ++ apS ++
             "next Friday" ++ apS ++ ", " ++
             "or a specific date like " ++ apS ++ "January fifteenth" ++ apS ++ " or " ++
             apS ++ "the fifteenth of January" ++ apS ++ "."
           next_action := "collect_date"
           needs_more_info := true })
      else if anyWordIn rejectionWords lo then
        ({ w2 with session.pending_contact := none },
         { rd with
           response_text := "No problem. Please say your phone number again, " ++
             "or you can say it digit by digit."
           next_action := "collect_contact"
           needs_more_info := true })
      else handleCollecting w2 st u ents rd
    else if st = ConversationState.collectingTime then
      -- the source tests `response_data.get('next_action') == 'confirm_time'` on the
      -- freshly initialized response dict, so this inner branch mirrors that test
      if w2.session.pending_time.isSome ∧ rd.next_action = "confirm_time" then
        let pt := w2.session.pending_time.getD ""
        let lo := toLowerL u.data
        if anyWordIn confirmationWords lo then
          ({ w2 with
             draft := updateDraft w2.draft { time := some pt }
             session.pending_time := none
             session.conversation_state := ConversationState.collectingGuests
             session.time_retry_count := none },
           { rd with
             response_text := "Perfect! Time: " ++ pt ++ ". How many people will be dining?"
             next_action := "collect_guests"
             needs_more_info := true })
        else if anyWordIn rejectionWords lo then
          ({ w2 with session.pending_time := none },
           { rd with
             response_text := "No problem. Please say the time again. " ++
               "Remember, we" ++ apS ++ "re open from 9am to 10pm."
             next_action := "collect_time"
             needs_more_info := true })
        else handleCollecting w2 st u ents rd
      else handleCollecting w2 st u ents rd
    else handleCollecting w2 st u ents rd
  else if st = ConversationState.collectingReservationId then
    handleResId w2 u ents rd w2.session.action_type
  else (w2, handleOther ic.1 rd)

section ClaimProofs

/- the Batteries rational operations are `irreducible`; reducibility is
restored locally so that concrete turns of the engine evaluate. -/
attribute [local semireducible] Rat.add Rat.mul Rat.inv

/-! ### Claim-side specification definitions (for refinement comparisons) -/

/-- C6 as the claim states it: accepted exactly when ("am" present and
the leading hour is 9–11), or ("pm" present and the hour is 12 or 1–10),
or no meridiem is stated. -/
def timeValidSpecC6 (t : String) : Bool :=
  let tl := pyStrip (toLowerL t.data)
  let hasAm := containsSub tl "am".data
  let hasPm := containsSub tl "pm".data
  let hourOkAm := match hourNumOf tl with
    | some h => decide (9 ≤ h ∧ h ≤ 11)
    | none => false
  let hourOkPm := match hourNumOf tl with
    | some h => decide (h = 12 ∨ (1 ≤ h ∧ h ≤ 10))
    | none => false
  (hasAm && hourOkAm) || (hasPm && hourOkPm) || (!hasAm && !hasPm)

/-- C6 amended: a string with no hour digits is accepted outright; with
an hour, "am" takes precedence (hour 9–11), else "pm" (hour 12 or 1–10),
else accepted. -/
def timeValidSpecAmended (t : String) : Bool :=
  let tl := pyStrip (toLowerL t.data)
  let hasAm := containsSub tl "am".data
  let hasPm := containsSub tl "pm".data
  match hourNumOf tl with
  | none => true
  | some h =>
    (hasAm && decide (9 ≤ h ∧ h ≤ 11)) ||
    (!hasAm && hasPm && decide (h = 12 ∨ (1 ≤ h ∧ h ≤ 10))) ||
    (!hasAm && !hasPm)

/-- C9 as the claim states it: a name is produced exactly when 1–3 words
remain after dropping the tokens of length ≤ 2. -/
def nameSpecC9 (u : String) : Option String :=
  let kept := (pySplit u.data).filter fun w => 2 < w.length
  if 1 ≤ kept.length ∧ kept.length ≤ 3 then
    some (joinSep " " ((kept.map capFirst).map String.mk))
  else none

/-- C9 amended: the 1–3 word bound applies to the words of the utterance
before filtering; at least one word longer than 2 characters must
survive, and the surviving words are capitalized and joined. -/
def nameSpecAmended (u : String) (st : ConversationState) : Option String :=
  if st = ConversationState.collectingName ∧ 1 ≤ (pySplit u.data).length ∧
      (pySplit u.data).length ≤ 3 ∧ (pySplit u.data).any (fun w => 2 < w.length) then
    some (joinSep " " ((((pySplit u.data).filter fun w => 2 < w.length).map capFirst).map
      String.mk))
  else none

/-! ### Counterexample and code-divergence theorems (concrete inputs) -/

/-- C1 counterexample: in CollectingContact with no pending contact, the
turn that extracts "5551234567" already writes it into the reservation
draft (`update_reservation_data` runs on all extracted entities before
the confirmation sub-dialogue), while the claim says the draft is not
written on that turn. -/
theorem c1_counterexample :
    (processUserInput { session := { conversation_state :=
        ConversationState.collectingContact } } "5551234567").1.draft.contact =
      some "5551234567" ∧
    (processUserInput { session := { conversation_state :=
        ConversationState.collectingContact } } "5551234567").1.session.pending_contact =
      some "5551234567" ∧
    (processUserInput { session := { conversation_state :=
        ConversationState.collectingContact } } "5551234567").1.session.conversation_state =
      ConversationState.collectingContact := by
  decide

/-- C2 code-bug evaluation: (a) in CollectingTime the bare utterance "7"
matches the bare-number time pattern inside `extract_entities`, is
validated as-is (no meridiem) and committed, advancing to
CollectingGuests with `next_action = collect_guests` — not stored as
`pending_time = "7 pm"` with `confirm_time` and an unchanged state as
the claim says; (b) with a pending time present, the follow-up "yes" is
not treated as a confirmation (the source compares `next_action` of the
freshly initialized response to "confirm_time"), so the pending time is
neither committed nor cleared and the state does not advance. -/
theorem c2_code_divergence :
    ((processUserInput { session := { conversation_state :=
        ConversationState.collectingTime } } "7").2.next_action = "collect_guests" ∧
     (processUserInput { session := { conversation_state :=
        ConversationState.collectingTime } } "7").1.session.conversation_state =
       ConversationState.collectingGuests ∧
     (processUserInput { session := { conversation_state :=
        ConversationState.collectingTime } } "7").1.session.pending_time = none ∧
     (processUserInput { session := { conversation_state :=
        ConversationState.collectingTime } } "7").1.draft.time = some "7") ∧
    ((processUserInput { session := { conversation_state :=
        ConversationState.collectingTime, pending_time := some ("7 pm") } }
        "yes").1.session.pending_time = some ("7 pm") ∧
     (processUserInput { session := { conversation_state :=
        ConversationState.collectingTime, pending_time := some ("7 pm") } }
        "yes").1.session.conversation_state = ConversationState.collectingTime ∧
     (processUserInput { session := { conversation_state :=
        ConversationState.collectingTime, pending_time := some ("7 pm") } }
        "yes").1.draft.time = none) := by
  decide

/-- C3 counterexample: a Greeting in the Initial state returns
`needs_more_info = false` although the turn reached neither Completed
nor a hangup nor a terminal confirmation. -/
theorem c3_counterexample :
    (processUserInput {} "hello").2.needs_more_info = false ∧
    (processUserInput {} "hello").2.next_action = "" ∧
    (processUserInput {} "hello").1.session.conversation_state =
      ConversationState.initial ∧
    (processUserInput {} "hello").2.intent = Intent.greeting := by
  decide

/-- C4 counterexample: CollectingReservationId with `action_type =
cancel` and an id absent from the store moves to Completed but leaves
`next_action` empty (not "complete") and keeps `needs_more_info = true`. -/
theorem c4_counterexample :
    (processUserInput { session := { conversation_state :=
        ConversationState.collectingReservationId, action_type := some "cancel" } }
        "ABCD1234").2.next_action = "" ∧
    (processUserInput { session := { conversation_state :=
        ConversationState.collectingReservationId, action_type := some "cancel" } }
        "ABCD1234").2.needs_more_info = true ∧
    (processUserInput { session := { conversation_state :=
        ConversationState.collectingReservationId, action_type := some "cancel" } }
        "ABCD1234").1.session.conversation_state = ConversationState.completed := by
  decide

/-- C6 counterexample: the code accepts the hour-less string "am"
(`_validate_time_within_hours` returns True when no digits are found),
while the claim's exactly-when condition rejects it (it states a
meridiem and its leading hour is not in 9–11). -/
theorem c6_counterexample :
    validateTimeWithinHours "am" = true ∧ timeValidSpecC6 "am" = false := by
  decide

/-- C7 code-bug evaluation: for "at 3 table for 12" the "table/
reservation for N" pattern matches but the code reads `group(1)` (the
literal "table for"), whose `int()` conversion fails, so the bare-number
fallback wins with the earlier "3" — the claimed priority order would
give "12". -/
theorem c7_code_divergence :
    (extractEntities "at 3 table for 12" ConversationState.initial).guests =
      some "3" := by
  decide

/-- C8 code-bug evaluation: the spoken-digit normalization keeps the
separating spaces ("five five five …" becomes "5 5 5 …"), which no phone
pattern matches, so `extract_entities` yields no contact for the claimed
utterance; the value "5551234567" is produced only by the
CollectingContact fallback inside `_handle_collecting_state`. -/
theorem c8_code_divergence :
    (extractEntities "five five five one two three four five six seven"
      ConversationState.collectingContact).contact = none ∧
    (processUserInput { session := { conversation_state :=
        ConversationState.collectingContact } }
        "five five five one two three four five six seven").1.session.pending_contact =
      some "5551234567" := by
  decide

/-- C9 counterexample: for "my name is John" in CollectingName the claim
(1–3 words remaining after dropping short tokens, here "Name John")
produces a name, but the code requires 1–3 words before filtering and
yields none for the four-word utterance. -/
theorem c9_counterexample :
    (extractEntities "my name is John" ConversationState.collectingName).name = none ∧
    nameSpecC9 "my name is John" = some ("Name John") := by
  decide

/-! ### Confirmed and amended universal theorems -/

/-- C10: for every utterance, `extract_entities` agrees across any two
conversation states on every field except the name: only the name rule
consults the current state. -/
theorem extractEntities_state_independent (u : String) (s1 s2 : ConversationState) :
    (extractEntities u s1).date = (extractEntities u s2).date ∧
    (extractEntities u s1).time = (extractEntities u s2).time ∧
    (extractEntities u s1).guests = (extractEntities u s2).guests ∧
    (extractEntities u s1).reservation_id = (extractEntities u s2).reservation_id ∧
    (extractEntities u s1).contact = (extractEntities u s2).contact :=
  ⟨rfl, rfl, rfl, rfl, rfl⟩

/-- C9 amended: name extraction runs only in CollectingName, and it
yields a name exactly when the utterance has 1–3 whitespace-separated
words of which at least one is longer than 2 characters; the surviving
long words are capitalized and joined (the 1–3 bound applies before the
short tokens are dropped, not after). -/
theorem nameExtraction_amended (u : String) (st : ConversationState) :
    (extractEntities u st).name = nameSpecAmended u st := by
  show nameOf u.data st = nameSpecAmended u st
  unfold nameOf nameSpecAmended
  by_cases hst : st = ConversationState.collectingName
  · simp only [hst, if_pos rfl, true_and]
    by_cases hlen : 1 ≤ (pySplit u.data).length ∧ (pySplit u.data).length ≤ 3
    · simp only [hlen.1, hlen.2, and_self, if_pos, true_and]
      by_cases hany : (pySplit u.data).any (fun w => 2 < w.length)
      · have hne : (pySplit u.data).filter (fun w => 2 < w.length) ≠ [] := by
          simp only [ne_eq, List.filter_eq_nil_iff, not_forall]
          rcases List.any_eq_true.mp hany with ⟨x, hx, hx2⟩
          exact ⟨x, hx, by simpa using hx2⟩
        simp [hany, hne, List.map_map]
      · have he : (pySplit u.data).filter (fun w => 2 < w.length) = [] := by
          rw [List.filter_eq_nil_iff]
          intro a ha
          by_contra hcon
          exact hany (List.any_eq_true.mpr ⟨a, ha, by simpa using hcon⟩)
        simp [hany, he]
    · rcases not_and_or.mp hlen with h | h <;> simp [h]
  · simp [hst]

/-- C6 amended: the validator accepts a time string exactly when it has
no hour digits at all, or ("am" present and hour 9–11), or (no "am",
"pm" present, and hour 12 or 1–10), or neither meridiem present —
i.e. the claim's rule plus the missing-hour case, with "am" taking
precedence over "pm". -/
theorem timeValidation_amended (t : String) :
    validateTimeWithinHours t = timeValidSpecAmended t := by
  unfold validateTimeWithinHours timeValidSpecAmended
  cases hh : hourNumOf (pyStrip (toLowerL t.data)) with
  | none => simp [hh]
  | some h =>
    cases hA : containsSub (pyStrip (toLowerL t.data)) "am".data with
    | true => simp [hh, hA]
    | false =>
      cases hP : containsSub (pyStrip (toLowerL t.data)) "pm".data with
      | true => simp [hh, hA, hP]
      | false => simp [hh, hA, hP]

set_option maxHeartbeats 1000000 in
/-- C1 amended: in CollectingContact with no pending contact, a turn
whose utterance yields a contact entity stores it as `pending_contact`,
asks for confirmation (`next_action = confirm_contact`), and leaves the
state at CollectingContact — but the contact IS also written into the
reservation draft on that same turn, by the unconditional entity update
that precedes the state handling; only the claim's "the draft is not
written until a confirming turn" part fails. -/
theorem contactPending_amended (w : World) (u : String) (c : String)
    (hst : w.session.conversation_state = ConversationState.collectingContact)
    (hpend : w.session.pending_contact = none)
    (hc : (extractEntities u ConversationState.collectingContact).contact = some c)
    (hne : c ≠ "") :
    (processUserInput w u).1.draft.contact = some c ∧
    (processUserInput w u).1.session.pending_contact = some c ∧
    (processUserInput w u).1.session.conversation_state =
      ConversationState.collectingContact ∧
    (processUserInput w u).2.next_action = "confirm_contact" ∧
    (processUserInput w u).2.needs_more_info = true := by
  have hAny : entitiesAny (extractEntities u ConversationState.collectingContact) = true := by
    unfold entitiesAny
    rw [hc]
    simp
  simp only [processUserInput, hst, hAny, if_true, ite_true]
  rw [if_neg (by decide), if_pos (by decide)]
  split
  · simp [handleCollecting, hpend, hc, hne, hst, updateDraft, updOne]
  · split
    · simp [handleCollecting, hpend, hc, hne, hst, updateDraft, updOne]
    · simp [handleCollecting, hpend, hc, hne, hst, updateDraft, updOne]

/-- witness for `contactPending_amended` at a concrete turn. -/
theorem contactPending_amended_witness :
    (processUserInput { session := { conversation_state :=
        ConversationState.collectingContact } } "5551234567").1.draft.contact =
      some "5551234567" ∧
    (processUserInput { session := { conversation_state :=
        ConversationState.collectingContact } } "5551234567").1.session.pending_contact =
      some "5551234567" ∧
    (processUserInput { session := { conversation_state :=
        ConversationState.collectingContact } } "5551234567").1.session.conversation_state =
      ConversationState.collectingContact ∧
    (processUserInput { session := { conversation_state :=
        ConversationState.collectingContact } } "5551234567").2.next_action =
      "confirm_contact" ∧
    (processUserInput { session := { conversation_state :=
        ConversationState.collectingContact } } "5551234567").2.needs_more_info = true :=
  contactPending_amended _ "5551234567" "5551234567" rfl rfl (by decide) (by decide)

/-- the reservation id the handler ends up using: the extracted entity,
else the looser 4–10 character alphanumeric fallback. -/
def extractedRid (u : String) : Option String :=
  match (extractEntities u ConversationState.collectingReservationId).reservation_id with
  | some rid => some rid
  | none => (reSearch looseIdPat (toUpperL u.data)).map fun m =>
      String.mk ((capGet (toUpperL u.data) m 1).getD [])

/-- the action type the handler reads: set by this turn's intent when it
is Check/CancelReservation, else the stored one. -/
def effActionType (w : World) (u : String) : Option String :=
  if (recognizeIntent u).1 = Intent.checkReservation then some "check"
  else if (recognizeIntent u).1 = Intent.cancelReservation then some "cancel"
  else w.session.action_type

set_option maxHeartbeats 4000000 in
/-- C4 amended: in CollectingReservationId, whenever an id is obtained
(entity or looser fallback) the state becomes Completed for every action
type and store content; `next_action = complete` holds in every case
EXCEPT cancel with an id absent from the store, where `next_action`
stays empty and `needs_more_info` remains true; with no id at all, the
state is unchanged and the caller is re-prompted. -/
theorem reservationId_amended (w : World) (u : String)
    (hst : w.session.conversation_state = ConversationState.collectingReservationId) :
    (∀ rid, extractedRid u = some rid →
      (processUserInput w u).1.session.conversation_state = ConversationState.completed ∧
      ((effActionType w u = some "cancel" ∧
          (w.reservations.find? fun pr =>
            pr.1 = String.mk (toUpperL rid.data)).isSome = false →
        (processUserInput w u).2.next_action = "" ∧
        (processUserInput w u).2.needs_more_info = true) ∧
       (¬ (effActionType w u = some "cancel" ∧
          (w.reservations.find? fun pr =>
            pr.1 = String.mk (toUpperL rid.data)).isSome = false) →
        (processUserInput w u).2.next_action = "complete" ∧
        (processUserInput w u).2.needs_more_info = false))) ∧
    (extractedRid u = none →
      (processUserInput w u).1.session.conversation_state =
        ConversationState.collectingReservationId ∧
      (processUserInput w u).2.needs_more_info = true) := by
  simp only [processUserInput, hst]
  rw [if_neg (by decide), if_neg (by decide), if_pos (by decide)]
  unfold handleResId handleResIdCore extractedRid effActionType
  cases hr : (extractEntities u ConversationState.collectingReservationId).reservation_id with
  | some rid =>
    simp only [hr]
    constructor
    · intro rid2 hrid2
      injection hrid2 with hrid2
      subst hrid2
      repeat' split
      all_goals simp_all
    · intro hnone
      exact absurd hnone (by simp)
  | none =>
    simp only [hr]
    cases hf : reSearch looseIdPat (toUpperL u.data) with
    | some m =>
      simp only [hf]
      constructor
      · intro rid2 hrid2
        injection hrid2 with hrid2
        subst hrid2
        repeat' split
        all_goals simp_all
      · intro hnone
        simp at hnone
    | none =>
      simp only [hf]
      constructor
      · intro rid2 hrid2
        simp at hrid2
      · intro _
        repeat' split
        all_goals simp_all [hst]

/-- witness for `reservationId_amended`: cancel with an absent id. -/
theorem reservationId_amended_witness :
    (processUserInput { session := { conversation_state :=
        ConversationState.collectingReservationId, action_type := some "cancel" } }
        "ABCD1234").1.session.conversation_state = ConversationState.completed ∧
    (processUserInput { session := { conversation_state :=
        ConversationState.collectingReservationId, action_type := some "cancel" } }
        "ABCD1234").2.next_action = "" ∧
    (processUserInput { session := { conversation_state :=
        ConversationState.collectingReservationId, action_type := some "cancel" } }
        "ABCD1234").2.needs_more_info = true := by
  have h := (reservationId_amended { session := { conversation_state := ConversationState.collectingReservationId, action_type := some "cancel" } } "ABCD1234" rfl).1 "ABCD1234" (by decide)
  exact ⟨h.1, (h.2.1 (by decide)).1, (h.2.1 (by decide)).2⟩

/-- the kept maximum is one of the scores. -/
theorem firstMax_mem (a : Intent × ℚ) (l : List (Intent × ℚ)) : firstMax a l ∈ a :: l := by
  induction l generalizing a with
  | nil => simp [firstMax]
  | cons p ps ih =>
    by_cases h : p.2 > a.2
    · simp only [firstMax, if_pos h]
      exact List.mem_cons_of_mem a (ih p)
    · simp only [firstMax, if_neg h]
      rcases List.mem_cons.mp (ih a) with h1 | h1
      · rw [h1]
        exact List.mem_cons_self a _
      · exact List.mem_cons_of_mem a (List.mem_cons_of_mem p h1)

theorem firstMax_ge (a : Intent × ℚ) (l : List (Intent × ℚ)) :
    ∀ p ∈ a :: l, p.2 ≤ (firstMax a l).2 := by
  induction l generalizing a with
  | nil =>
    intro p hp
    rw [List.mem_singleton.mp hp]
    simp [firstMax]
  | cons q ps ih =>
    intro p hp
    by_cases h : q.2 > a.2
    · simp only [firstMax, if_pos h]
      rcases List.mem_cons.mp hp with h1 | h1
      · rw [h1]
        exact le_trans (le_of_lt h) (ih q q (List.mem_cons_self _ _))
      · exact ih q p h1
    · simp only [firstMax, if_neg h]
      rcases List.mem_cons.mp hp with h1 | h1
      · rw [h1]
        exact ih a a (List.mem_cons_self _ _)
      · rcases List.mem_cons.mp h1 with h2 | h2
        · rw [h2]
          exact le_trans (not_lt.mp h) (ih a a (List.mem_cons_self _ _))
        · exact ih a p (List.mem_cons_of_mem a h2)

theorem firstMax_split (a : Intent × ℚ) (l : List (Intent × ℚ)) :
    ∃ pre post, a :: l = pre ++ firstMax a l :: post ∧
      ∀ p ∈ pre, p.2 < (firstMax a l).2 := by
  induction l generalizing a with
  | nil => exact ⟨[], [], by simp [firstMax], by simp⟩
  | cons q ps ih =>
    by_cases h : q.2 > a.2
    · simp only [firstMax, if_pos h]
      obtain ⟨pre, post, heq, hlt⟩ := ih q
      refine ⟨a :: pre, post, ?_, ?_⟩
      · rw [List.cons_append, ← heq]
      · intro p hp
        rcases List.mem_cons.mp hp with h1 | h1
        · rw [h1]
          exact lt_of_lt_of_le h (firstMax_ge q ps q (List.mem_cons_self _ _))
        · exact hlt p h1
    · simp only [firstMax, if_neg h]
      obtain ⟨pre, post, heq, hlt⟩ := ih a
      cases pre with
      | nil =>
        simp only [List.nil_append] at heq
        refine ⟨[], q :: ps, ?_, by simp⟩
        have hfa : firstMax a ps = a := by
          have := heq
          injection this with h1 h2
          exact h1.symm
        rw [hfa]
        rfl
      | cons x pre2 =>
        simp only [List.cons_append] at heq
        injection heq with hx hps
        refine ⟨a :: q :: pre2, post, ?_, ?_⟩
        · simp only [List.cons_append]
          conv_lhs => rw [hps]
        · intro p hp
          have hxa : x = a := hx.symm
          rcases List.mem_cons.mp hp with h1 | h1
          · rw [h1]
            have : a ∈ x :: pre2 := by rw [hxa]; exact List.mem_cons_self _ _
            exact hlt a this
          · rcases List.mem_cons.mp h1 with h2 | h2
            · rw [h2]
              have haLt : a.2 < (firstMax a ps).2 := by
                have : a ∈ x :: pre2 := by rw [hxa]; exact List.mem_cons_self _ _
                exact hlt a this
              exact lt_of_le_of_lt (not_lt.mp h) haLt
            · exact hlt p (List.mem_cons_of_mem x h2)

/-- C5: `recognize_intent` returns (Unknown, 0) exactly when the
utterance is empty, no intent pattern matched (the scores list is
empty), or every populated per-intent score is below 0.3; otherwise the
returned pair is a member of the populated scores list with a score of
at least 0.3 that dominates every score, every strictly earlier entry
in declaration order scoring strictly less (ties break to the
first-declared intent). -/
theorem recognizeIntent_spec (u : String) :
    (recognizeIntent u = (Intent.unknown, 0) ↔
      (u = "" ∨ intentScoresOf u = [] ∨ ∀ p ∈ intentScoresOf u, p.2 < (3:ℚ)/10)) ∧
    (∀ i q, recognizeIntent u = (i, q) → ¬(i = Intent.unknown ∧ q = 0) →
      (3:ℚ)/10 ≤ q ∧ (∀ p ∈ intentScoresOf u, p.2 ≤ q) ∧
      ∃ pre post, intentScoresOf u = pre ++ (i, q) :: post ∧ ∀ p ∈ pre, p.2 < q) := by
  by_cases hu : u = ""
  · constructor
    · simp [recognizeIntent, hu]
    · intro i q hiq hne
      rw [recognizeIntent, if_pos hu] at hiq
      injection hiq with h1 h2
      exact absurd ⟨h1.symm, h2.symm⟩ hne
  · cases hs : intentScoresOf u with
    | nil =>
      have hrec : recognizeIntent u = (Intent.unknown, 0) := by
        simp [recognizeIntent, hu, hs]
      constructor
      · constructor
        · intro _
          right; left; rfl
        · intro _
          exact hrec
      · intro i q hiq hne
        rw [hrec] at hiq
        injection hiq with h1 h2
        exact absurd ⟨h1.symm, h2.symm⟩ hne
    | cons s ss =>
      have hmem := firstMax_mem s ss
      have hge := firstMax_ge s ss
      have hsplit := firstMax_split s ss
      by_cases hb : (3:ℚ)/10 ≤ (firstMax s ss).2
      · have hrec : recognizeIntent u = firstMax s ss := by
          simp [recognizeIntent, hu, hs]
          intro hcon
          exact absurd hb (not_le.mpr hcon)
        constructor
        · constructor
          · intro heq
            exfalso
            rw [hrec] at heq
            have h0 : (firstMax s ss).2 = 0 := by rw [heq]
            rw [h0] at hb
            norm_num at hb
          · intro hor
            rcases hor with h | h | h
            · exact absurd h hu
            · exact (List.cons_ne_nil s ss h).elim
            · exfalso
              have := h (firstMax s ss) hmem
              exact absurd hb (not_le.mpr this)
        · intro i q hiq hne
          rw [hrec] at hiq
          refine ⟨?_, ?_, ?_⟩
          · have hb2 := hb
            rw [hiq] at hb2
            exact hb2
          · intro p hp
            have := hge p hp
            rw [hiq] at this
            exact this
          · obtain ⟨pre, post, heq2, hlt⟩ := hsplit
            rw [hiq] at heq2 hlt
            exact ⟨pre, post, heq2, hlt⟩
      · have hrec : recognizeIntent u = (Intent.unknown, 0) := by
          simp [recognizeIntent, hu, hs]
          intro hcon
          exact absurd hcon hb
        constructor
        · constructor
          · intro _
            right; right
            intro p hp
            exact lt_of_le_of_lt (hge p hp) (not_le.mp hb)
          · intro _
            exact hrec
        · intro i q hiq hne
          rw [hrec] at hiq
          injection hiq with h1 h2
          exact absurd ⟨h1.symm, h2.symm⟩ hne

/-- witness for `recognizeIntent_spec` at "hello" (Greeting, score 1). -/
theorem recognizeIntent_spec_witness :
    (3:ℚ)/10 ≤ 1 ∧ (∀ p ∈ intentScoresOf "hello", p.2 ≤ 1) ∧
    ∃ pre post, intentScoresOf "hello" = pre ++ (Intent.greeting, 1) :: post ∧
      ∀ p ∈ pre, p.2 < 1 :=
  (recognizeIntent_spec "hello").2 Intent.greeting 1 (by decide) (by decide)

set_option maxHeartbeats 4000000 in
/-- C3 amended: every turn returns `needs_more_info = true` unless the
turn reached Completed (`next_action = complete`), a hangup, or the
terminal confirmation (`next_action = confirm_reservation`) — or it was
one of the quiet branches the claim misses: any turn starting in
ConfirmingReservation or Completed, an informational or clarifying
reply in Initial (Greeting, Help, or an unrecognized intent), the
CollectingName re-prompt on a whitespace-only utterance, or the
CollectingGuests re-prompt when no guest count was extracted. -/
theorem needsMoreInfo_amended (w : World) (u : String) :
    (processUserInput w u).2.needs_more_info = true ∨
    (processUserInput w u).2.next_action = "hangup" ∨
    (processUserInput w u).2.next_action = "complete" ∨
    (processUserInput w u).2.next_action = "confirm_reservation" ∨
    (w.session.conversation_state = ConversationState.confirmingReservation ∨
     w.session.conversation_state = ConversationState.completed) ∨
    (w.session.conversation_state = ConversationState.initial ∧
      ((processUserInput w u).2.intent = Intent.greeting ∨
       (processUserInput w u).2.intent = Intent.help ∨
       (processUserInput w u).2.intent = Intent.unknown)) ∨
    (w.session.conversation_state = ConversationState.collectingName ∧
      pySplit (pyStrip u.data) = []) ∨
    (w.session.conversation_state = ConversationState.collectingGuests ∧
      (extractEntities u ConversationState.collectingGuests).guests = none) := by
  cases hst : w.session.conversation_state with
  | initial =>
    simp only [processUserInput]
    rw [hst, if_pos rfl]
    cases hin : (recognizeIntent u).1 <;> simp [handleInitial]
  | collectingName =>
    simp only [processUserInput]
    rw [hst, if_neg (by decide), if_pos (by decide), if_neg (by simp),
      if_neg (by decide)]
    simp only [handleCollecting]
    cases hn : (extractEntities u ConversationState.collectingName).name with
    | some nm => simp
    | none =>
      by_cases hw : (pySplit (pyStrip u.data)).length ≥ 1
      · simp [hw]
      · have hempty : pySplit (pyStrip u.data) = [] := by
          cases hx : pySplit (pyStrip u.data) with
          | nil => rfl
          | cons y ys =>
            exact absurd (by rw [hx]; simp : (pySplit (pyStrip u.data)).length ≥ 1) hw
        simp [hw, hempty]
  | collectingContact =>
    simp only [processUserInput]
    rw [hst, if_neg (by decide), if_pos (by decide)]
    left
    repeat' split
    all_goals simp [handleCollecting]
    all_goals repeat' split
    all_goals simp
  | collectingDate =>
    simp only [processUserInput]
    rw [hst, if_neg (by decide), if_pos (by decide), if_neg (by simp),
      if_neg (by decide)]
    left
    simp only [handleCollecting]
    repeat' split
    all_goals simp
  | collectingTime =>
    simp only [processUserInput]
    rw [hst, if_neg (by decide), if_pos (by decide), if_neg (by simp), if_pos rfl]
    left
    repeat' split
    all_goals simp [handleCollecting]
    all_goals repeat' split
    all_goals simp
  | collectingGuests =>
    simp only [processUserInput]
    rw [hst, if_neg (by decide), if_pos (by decide), if_neg (by simp),
      if_neg (by decide)]
    simp only [handleCollecting]
    cases hg : (extractEntities u ConversationState.collectingGuests).guests with
    | some g => simp
    | none => simp
  | collectingReservationId =>
    simp only [processUserInput]
    rw [hst, if_neg (by decide), if_neg (by decide), if_pos (by decide)]
    simp only [handleResId, handleResIdCore]
    repeat' split
    all_goals simp
  | confirmingReservation =>
    right; right; right; right; left; left; rfl
  | completed =>
    right; right; right; right; left; right; rfl

end ClaimProofs
